import Mathlib

/-!
Verification of the pointer-admin frontend (spot form and locations page)
against its natural-language specification, via a shallow embedding of
`src/pages/spots/SpotForm/index.tsx` and `src/pages/Locations/index.tsx`.

TypeScript numbers used here (latitude, longitude) are modelled as `Rat`;
strings as `String`; values that may be `undefined` in JS as `Option`.
-/

namespace PointerAdmin

/-- JS truthiness of a possibly-undefined string: `undefined` and the empty
string are falsy, every other string is truthy (used for `!stateId`,
`preview ? ... : ...`). -/
def jsTruthyStr : Option String → Bool
  | none => false
  | some s => !s.isEmpty

/- ### DTOs (from `@/services/*.service` usage in the two pages) -/

/-- StateDTO from `@/services/state.service`: used as `state.id`, `state.name`. -/
structure StateDTO where
  id : String
  name : String
  deriving Repr, DecidableEq

/-- CityDTO from `@/services/state.service`: used as `city.id`, `city.name`. -/
structure CityDTO where
  id : String
  name : String
  deriving Repr, DecidableEq

/-- CategoryDTO from `@/services/category.service`: used as `category.id`,
`category.name`. -/
structure CategoryDTO where
  id : String
  name : String
  deriving Repr, DecidableEq

/-- The `state` nested inside a spot's city (used as `spot.city.state.id`). -/
structure SpotCityState where
  id : String
  deriving Repr, DecidableEq

/-- The `city` nested inside `SpotByIdDTO` (used as `spot.city.id` and
`spot.city.state`). -/
structure SpotCity where
  id : String
  state : SpotCityState
  deriving Repr, DecidableEq

/-- The `category` nested inside `SpotByIdDTO` (used as `spot.category.id`). -/
structure SpotCategory where
  id : String
  deriving Repr, DecidableEq

/-- The optional `file` nested inside `SpotByIdDTO` (used as `spot.file?.name`). -/
structure SpotFile where
  name : String
  deriving Repr, DecidableEq

/-- SpotByIdDTO from `@/services/spot.service`, reconstructed from its usage in
`SpotForm`: `spot.name`, `spot.city.id`, `spot.city.state.id`, `spot.preview`,
`spot.category.id`, `spot.longitude`, `spot.latitude`, `spot.file?.name`. -/
structure SpotByIdDTO where
  name : String
  city : SpotCity
  category : SpotCategory
  preview : String
  latitude : Rat
  longitude : Rat
  file : Option SpotFile
  deriving Repr, DecidableEq

/-- SpotInput, the payload type of the spot form
(`src/pages/spots/SpotForm/index.tsx` lines 23-31). -/
structure SpotInput where
  name : String
  state_id : String
  city_id : String
  category_id : String
  preview : String
  latitude : Rat
  longitude : Rat
  deriving Repr, DecidableEq

/-- The raw field values held by the form before validation: each field may
still be `undefined` (e.g. when no default value was supplied). -/
structure SpotFormValues where
  name : Option String
  state_id : Option String
  city_id : Option String
  category_id : Option String
  preview : Option String
  latitude : Option Rat
  longitude : Option Rat
  deriving Repr, DecidableEq

/-- Field error produced for a required field: the field's name when the value
is absent, nothing otherwise (part of the spec-modelled `spotSchema`, see
`spotSchemaValidate`). -/
def requiredFieldErrors (field : String) {α : Type} (v : Option α) :
    List String :=
  if v.isNone then [field] else []

/-- Field errors produced for the latitude field: required, and constrained to
the interval [-90, 90] (part of the spec-modelled `spotSchema`, see
`spotSchemaValidate`). -/
def latitudeFieldErrors (la : Option Rat) : List String :=
  match la with
  | none => ["latitude"]
  | some lat => if lat < -90 ∨ 90 < lat then ["latitude"] else []

/-- Names of the fields of `v` that fail the spec-modelled `spotSchema` (see
`spotSchemaValidate`). -/
def spotSchemaErrors (v : SpotFormValues) : List String :=
  requiredFieldErrors "name" v.name ++
  requiredFieldErrors "state_id" v.state_id ++
  requiredFieldErrors "city_id" v.city_id ++
  requiredFieldErrors "category_id" v.category_id ++
  requiredFieldErrors "preview" v.preview ++
  latitudeFieldErrors v.latitude ++
  requiredFieldErrors "longitude" v.longitude

/-- The typed payload `v` parses to under the spec-modelled `spotSchema`, when
every field passes (see `spotSchemaValidate`). -/
def spotSchemaParse (v : SpotFormValues) : Option SpotInput :=
  match v.name, v.state_id, v.city_id, v.category_id, v.preview,
      v.latitude, v.longitude with
  | some n, some st, some ci, some ca, some pr, some lat, some lo =>
    if lat < -90 ∨ 90 < lat then none
    else some ⟨n, st, ci, ca, pr, lat, lo⟩
  | _, _, _, _, _, _, _ => none

/-- Modelled from the spec: `spotSchema` (in `src/pages/spots/SpotForm/schema`,
absent from src/) is the yup schema bound through `yupResolver`.  Per the spec
it "validates via a schema resolver" and "form validation rejects malformed
input (e.g., latitude outside [-90, 90])": every field of `SpotInput` is
required, and latitude must lie in the interval [-90, 90].  Validation either
returns the typed payload or the list of names of the fields that failed. -/
def spotSchemaValidate (v : SpotFormValues) : Except (List String) SpotInput :=
  match spotSchemaParse v with
  | some payload => Except.ok payload
  | none => Except.error (spotSchemaErrors v)

/-- Outcome of submitting the form: react-hook-form's `handleSubmit(onSubmit)`
either invokes the caller-supplied `onSubmit` with the validated payload, or
attaches the resolver's errors to the fields and does not invoke `onSubmit`. -/
inductive SubmitOutcome where
  | invokedOnSubmit (payload : SpotInput)
  | fieldErrors (failedFields : List String)
  deriving Repr, DecidableEq

/-- The submit path of the spot form (`handleSubmit(onSubmit)` with
`resolver: yupResolver(spotSchema)`, lines 50-51 and 126): run the schema
resolver on the current field values; on success forward the validated payload
to `onSubmit`, on failure record inline field errors. -/
def spotFormSubmit (v : SpotFormValues) : SubmitOutcome :=
  match spotSchemaValidate v with
  | Except.ok payload => SubmitOutcome.invokedOnSubmit payload
  | Except.error errs => SubmitOutcome.fieldErrors errs

/- ### City selector (line 233: `disabled={!stateId}`) -/

/-- The `disabled` attribute of the city `Select` (line 233): the JS expression
`!stateId`, where `stateId = watch("state_id")` may be `undefined`. -/
def citySelectorDisabled (stateId : Option String) : Bool :=
  !(jsTruthyStr stateId)

/- ### Default values (lines 52-60) -/

/-- The record passed to `useForm` as `defaultValues`; each entry may be
`undefined` (optional chaining on an absent `spot`). -/
structure SpotFormDefaults where
  name : Option String
  city_id : Option String
  state_id : Option String
  preview : Option String
  category_id : Option String
  longitude : Option Rat
  latitude : Option Rat
  deriving Repr, DecidableEq

/-- The `defaultValues` object built in `useForm` (lines 52-60): every field is
read off the optional `spot` prop by optional chaining, so with no spot every
default is `undefined`. -/
def spotFormDefaultValues (spot : Option SpotByIdDTO) : SpotFormDefaults :=
  { name := spot.map (·.name)
    city_id := spot.map (·.city.id)
    state_id := spot.map (·.city.state.id)
    preview := spot.map (·.preview)
    category_id := spot.map (·.category.id)
    longitude := spot.map (·.longitude)
    latitude := spot.map (·.latitude) }

/- ### Network actions and error handling -/

/-- The observable result of running one async action to completion: the new
value of the local state it manages, the toast messages it emitted, and the
error it let escape uncaught (if any). -/
structure ActionRun (σ : Type) where
  state : σ
  toasts : List String
  uncaught : Option String
  deriving Repr, DecidableEq

/-- Extra state written by `getStates` besides the `states` list: when a `spot`
prop is present, line 76 re-sets the `state_id` form value. -/
structure GetStatesRun where
  states : List StateDTO
  stateIdSetTo : Option String
  toasts : List String
  uncaught : Option String
  deriving Repr, DecidableEq

/-- The `getStates` action (lines 71-80): on success store the fetched states
and, if editing an existing spot, set `state_id` to `spot.city.state.id`; any
error is caught and surfaced as a toast, nothing escapes. -/
def getStatesRun (spot : Option SpotByIdDTO) (current : List StateDTO)
    (resp : Except String (List StateDTO)) : GetStatesRun :=
  match resp with
  | Except.ok data =>
    ⟨data, spot.map (·.city.state.id), [], none⟩
  | Except.error e =>
    ⟨current, none, [e], none⟩

/-- The `getCities` action (lines 82-90): on success store `data.cities`; any
error is caught and surfaced as a toast, nothing escapes. -/
def getCitiesRun (current : List CityDTO)
    (resp : Except String (List CityDTO)) : ActionRun (List CityDTO) :=
  match resp with
  | Except.ok cities => ⟨cities, [], none⟩
  | Except.error e => ⟨current, [e], none⟩

/-- The `getCategories` action (lines 92-100): on success store the fetched
categories; any error is caught and surfaced as a toast, nothing escapes. -/
def getCategoriesRun (current : List CategoryDTO)
    (resp : Except String (List CategoryDTO)) : ActionRun (List CategoryDTO) :=
  match resp with
  | Except.ok data => ⟨data, [], none⟩
  | Except.error e => ⟨current, [e], none⟩

/-- The `getCurrentLocation` action (lines 102-113): on success set the
`latitude` and `longitude` form values; any error is caught and surfaced as a
toast, nothing escapes.  The state is the pair of form values. -/
def getCurrentLocationRun (current : Option Rat × Option Rat)
    (resp : Except String (Rat × Rat)) : ActionRun (Option Rat × Option Rat) :=
  match resp with
  | Except.ok latlong => ⟨(some latlong.1, some latlong.2), [], none⟩
  | Except.error e => ⟨current, [e], none⟩

/- ### Locations page (`src/pages/Locations/index.tsx`) -/

/-- MetaPagination from `@/types/pagination` (initial state, lines 67-72). -/
structure MetaPagination where
  page : Nat
  limit : Nat
  total : Nat
  totalPages : Nat
  deriving Repr, DecidableEq

/-- A raw record of a locations list response, before schema validation: each
expected field may be absent.  The fields are those the Locations columns read
(`id`, `name`, `city`, `state`). -/
structure RawLocation where
  id : Option String
  name : Option String
  city : Option String
  state : Option String
  deriving Repr, DecidableEq

/-- Modelled from the spec: `locationSchema` (in `src/pages/Locations/schema`,
absent from src/) is the zod schema the page parses list responses with.  Per
the spec, entities "are plain records mirrored from an external API ... each
with an identifier and display attributes" and are "transport DTOs validated
at the boundary by a schema library; no invariant beyond shape conformance":
a record conforms when every expected field is present. -/
def locationSchemaConforms (r : RawLocation) : Bool :=
  r.id.isSome && r.name.isSome && r.city.isSome && r.state.isSome

/-- The body of the `LocationService.getAll` response: the record list and the
pagination metadata. -/
structure LocationsResponse where
  data : List RawLocation
  meta : MetaPagination
  deriving Repr, DecidableEq

/-- The component state of the Locations page (lines 66-72): the `locations`
list and the `meta` pagination record. -/
structure LocationsState where
  locations : List RawLocation
  meta : MetaPagination
  deriving Repr, DecidableEq

/-- The initial Locations page state: empty list, all-zero metadata
(lines 66-72). -/
def locationsInit : LocationsState :=
  ⟨[], ⟨0, 0, 0, 0⟩⟩

/-- One completed `getLocations` fetch (lines 84-92):
`z.array(locationSchema).parse(data.data)` throws unless every record
conforms, in which case `setLocations` stores the parsed records and `setMeta`
stores the response metadata; when the parse throws, neither setter runs. -/
def getLocationsStep (st : LocationsState) (resp : LocationsResponse) :
    LocationsState :=
  if resp.data.all locationSchemaConforms then
    ⟨resp.data, resp.meta⟩
  else
    st

/-- The states of the Locations page reachable from the initial state by
completed `getLocations` fetches. -/
inductive LocationsReachable : LocationsState → Prop
  | init : LocationsReachable locationsInit
  | step (st : LocationsState) (resp : LocationsResponse) :
      LocationsReachable st → LocationsReachable (getLocationsStep st resp)

/-- The table pagination state managed by the `usePagination` hook of
`@/hooks`: a zero-based page index and a page size, mirrored into the
react-table `pagination` state (lines 64 and 78). -/
structure PaginationState where
  pageIndex : Nat
  pageSize : Nat
  deriving Repr, DecidableEq

/-- Modelled from the spec: the `usePagination` hook (in `@/hooks`, absent from
src/) backs the table described by "tables with pagination"; it exposes the
table's zero-based page index as `page` and its page size as `limit`. -/
def usePaginationPage (p : PaginationState) : Nat := p.pageIndex

/-- Modelled from the spec: the `limit` value exposed by `usePagination`, the
table's page size (see `usePaginationPage`). -/
def usePaginationLimit (p : PaginationState) : Nat := p.pageSize

/-- The query object a list fetch sends to a service. -/
structure ListQuery where
  page : Nat
  limit : Nat
  deriving Repr, DecidableEq

/-- The query `getLocations` passes to `LocationService.getAll`
(lines 85-88): `{ page: page + 1, limit }`. -/
def getLocationsQuery (p : PaginationState) : ListQuery :=
  ⟨usePaginationPage p + 1, usePaginationLimit p⟩

/- ### Effect scheduling in the spot form (lines 115-122) -/

/-- Whether the effect depending on `[stateId]` runs at render `i` of a render
sequence: React runs it on the initial render and whenever the dependency
differs from its value at the previous render. -/
def stateIdDepRuns (renders : List (Option String)) (i : Nat) : Bool :=
  i == 0 || (renders.getD i none != renders.getD (i - 1) none)

/-- Whether `getCities` is fetched at render `i` (lines 115-117): the effect
body runs `getCities()` only under `if (stateId)`. -/
def citiesFetchedAt (renders : List (Option String)) (i : Nat) : Bool :=
  stateIdDepRuns renders i && jsTruthyStr (renders.getD i none)

/-- Whether `getStates` is fetched at render `i` (lines 119-122): the effect
has an empty dependency list, so it runs exactly once, on mount. -/
def statesFetchedAt (i : Nat) : Bool :=
  i == 0

/-- Whether `getCategories` is fetched at render `i` (lines 119-122): same
mount-only effect as `getStates`. -/
def categoriesFetchedAt (i : Nat) : Bool :=
  i == 0

/- ### Buttons of the spot form (lines 199, 272-277) -/

/-- The click handlers that appear on buttons of the spot form. -/
inductive ClickHandler where
  | currentLocation
  deriving Repr, DecidableEq

/-- A button as declared in the form markup: its label, its `type` attribute
as written (or absent), its `onClick` handler (or absent), and its `variant`. -/
structure FormButton where
  label : String
  typeAttr : Option String
  onClick : Option ClickHandler
  variant : Option String
  deriving Repr, DecidableEq

/-- The "Localização atual" button (line 199): no declared `type`, an
`onClick` that runs `getCurrentLocation`. -/
def currentLocationButton : FormButton :=
  ⟨"Localização atual", none, some ClickHandler.currentLocation, none⟩

/-- The "Cancelar" button (lines 273-275): declared `type="submit"`,
`variant="ghost"`, no `onClick`. -/
def cancelarButton : FormButton :=
  ⟨"Cancelar", some "submit", none, some "ghost"⟩

/-- The "Salvar" button (line 276): declared `type="submit"`, no `onClick`. -/
def salvarButton : FormButton :=
  ⟨"Salvar", some "submit", none, none⟩

/-- All buttons rendered inside the spot form element. -/
def spotFormButtons : List FormButton :=
  [currentLocationButton, cancelarButton, salvarButton]

/-- The effective HTML type of a button inside a form: the declared `type`
attribute, or the HTML default "submit" when none is declared. -/
def effectiveButtonType (b : FormButton) : String :=
  b.typeAttr.getD "submit"

/-- What one press of a button does, under HTML form semantics: runs the
button's `onClick` handler, triggers the form's submit path
(`handleSubmit(onSubmit)`, i.e. `spotFormSubmit`) when its effective type is
"submit", and resets (discards) the form when its effective type is "reset". -/
structure ButtonPress where
  ranHandler : Option ClickHandler
  submitResult : Option SubmitOutcome
  resetForm : Bool
  deriving Repr, DecidableEq

/-- Press a button of the spot form while the form holds values `v`. -/
def pressButton (b : FormButton) (v : SpotFormValues) : ButtonPress :=
  ⟨b.onClick,
   if effectiveButtonType b == "submit" then some (spotFormSubmit v) else none,
   effectiveButtonType b == "reset"⟩

/- ### The image input handler (lines 153-175) -/

/-- A selected file, together with the object URL that
`URL.createObjectURL` yields for it. -/
structure FileObj where
  name : String
  url : String
  deriving Repr, DecidableEq

/-- The slice of spot-form state the image input touches: the `file` prop
state, the `preview` form value, and the error attached to the `preview`
field. -/
structure FileInputState where
  file : Option FileObj
  preview : Option String
  previewError : Option String
  deriving Repr, DecidableEq

/-- The `onChange` handler of the image `InputFile` (lines 158-174), given the
outcome of `validateFile` on the chosen file (`validateFile` lives in
`@/utils`; the handler only observes whether it returned or threw): when
validation passes, the handler stores the file, sets `preview` to the file's
object URL and clears the `preview` error; when validation throws a message,
the handler attaches that message as a custom error on `preview`, clears the
file state, and leaves the `preview` form value untouched. -/
def onFileChangeRun (st : FileInputState) (f : FileObj)
    (validation : Except String Unit) : FileInputState :=
  match validation with
  | Except.ok _ => ⟨some f, some f.url, none⟩
  | Except.error m => ⟨none, st.preview, some m⟩

/-- Whether the header of the form shows an `img` for the preview
(lines 131-139): the JSX renders the image exactly when `preview` is truthy. -/
def previewImageShown (preview : Option String) : Bool :=
  jsTruthyStr preview

/-- The `getLocations` action of the Locations page (lines 84-92), run against
a service call that may reject: the body has no try/catch, so a rejected call
escapes the action uncaught, emits no toast, and leaves the state unchanged;
a fulfilled call proceeds as `getLocationsStep`. -/
def getLocationsRun (st : LocationsState)
    (resp : Except String LocationsResponse) : ActionRun LocationsState :=
  match resp with
  | Except.ok r => ⟨getLocationsStep st r, [], none⟩
  | Except.error e => ⟨st, [], some e⟩

/- ### Concrete sample inputs used by witnesses -/

/-- A fully filled, in-range set of spot form values. -/
def sampleValidValues : SpotFormValues :=
  ⟨some "Praia do Forte", some "ba", some "mata-de-sao-joao", some "praia",
   some "blob:preview", some (-12), some (-38)⟩

/-- The payload `sampleValidValues` validates to. -/
def sampleValidPayload : SpotInput :=
  ⟨"Praia do Forte", "ba", "mata-de-sao-joao", "praia", "blob:preview",
   -12, -38⟩

/-- The same form values with latitude 91, outside [-90, 90]. -/
def sampleBadLatValues : SpotFormValues :=
  { sampleValidValues with latitude := some 91 }

/-- A conformant raw location record. -/
def sampleRawLocation : RawLocation :=
  ⟨some "1", some "Praia do Forte", some "Mata de São João", some "BA"⟩

/-- A list response carrying `sampleRawLocation` and some metadata. -/
def sampleLocationsResponse : LocationsResponse :=
  ⟨[sampleRawLocation], ⟨1, 10, 1, 1⟩⟩

/- ### Helper lemmas -/

/-- When the latitude field fails, the schema parse cannot succeed. -/
theorem spotSchemaParse_eq_none_of_bad_latitude (v : SpotFormValues)
    (lat : Rat) (hlat : v.latitude = some lat)
    (hout : lat < -90 ∨ 90 < lat) : spotSchemaParse v = none := by
  obtain ⟨n, s, c, ca, pr, la, lo⟩ := v
  simp only at hlat
  subst hlat
  rcases n with _ | n <;> rcases s with _ | s <;> rcases c with _ | c <;>
    rcases ca with _ | ca <;> rcases pr with _ | pr <;> rcases lo with _ | lo <;>
    simp [spotSchemaParse, hout]

/-- When the latitude field fails, "latitude" is among the schema errors. -/
theorem latitude_mem_spotSchemaErrors (v : SpotFormValues) (lat : Rat)
    (hlat : v.latitude = some lat) (hout : lat < -90 ∨ 90 < lat) :
    "latitude" ∈ spotSchemaErrors v := by
  have hfield : latitudeFieldErrors v.latitude = ["latitude"] := by
    rw [hlat]
    simp [latitudeFieldErrors, hout]
  simp [spotSchemaErrors, hfield]

/-- A defined string is truthy exactly when it is non-empty. -/
theorem jsTruthyStr_some (s : String) : jsTruthyStr (some s) = true ↔ s ≠ "" := by
  constructor
  · intro h he
    subst he
    have hfalse : jsTruthyStr (some "") = false := rfl
    rw [hfalse] at h
    exact Bool.false_ne_true h
  · intro h
    simp only [jsTruthyStr, Bool.not_eq_true']
    exact Bool.eq_false_iff.mpr fun hempty =>
      h ((String.isEmpty_iff s).mp hempty)

/- ### Claim theorems -/

/-- C1: for every submission of the spot form whose field values pass the
schema resolver, `handleSubmit(onSubmit)` invokes the caller-supplied
`onSubmit` exactly with the validated `SpotInput` payload; when validation
fails, `onSubmit` is not invoked and the resolver's errors become field
errors. -/
theorem spotForm_submit_invokes_callback_iff_valid (v : SpotFormValues) :
    (∀ p : SpotInput, spotSchemaValidate v = Except.ok p →
      spotFormSubmit v = SubmitOutcome.invokedOnSubmit p) ∧
    (∀ errs, spotSchemaValidate v = Except.error errs →
      spotFormSubmit v = SubmitOutcome.fieldErrors errs ∧
      ∀ p, spotFormSubmit v ≠ SubmitOutcome.invokedOnSubmit p) := by
  constructor
  · intro p hp
    simp [spotFormSubmit, hp]
  · intro errs he
    simp [spotFormSubmit, he]

/-- Witness for C1 at a concrete valid submission. -/
theorem spotForm_submit_invokes_callback_iff_valid_witness :
    spotFormSubmit sampleValidValues =
      SubmitOutcome.invokedOnSubmit sampleValidPayload :=
  (spotForm_submit_invokes_callback_iff_valid sampleValidValues).1
    sampleValidPayload rfl

/-- C2: a latitude outside [-90, 90] is rejected by form validation: the
submission never reaches `onSubmit` and produces a field error on
`latitude`. -/
theorem spotForm_rejects_out_of_range_latitude (v : SpotFormValues)
    (lat : Rat) (hlat : v.latitude = some lat)
    (hout : lat < -90 ∨ 90 < lat) :
    (∃ errs, spotFormSubmit v = SubmitOutcome.fieldErrors errs ∧
      "latitude" ∈ errs) ∧
    ∀ p, spotFormSubmit v ≠ SubmitOutcome.invokedOnSubmit p := by
  have hparse := spotSchemaParse_eq_none_of_bad_latitude v lat hlat hout
  have hmem := latitude_mem_spotSchemaErrors v lat hlat hout
  have hval : spotSchemaValidate v = Except.error (spotSchemaErrors v) := by
    simp [spotSchemaValidate, hparse]
  refine ⟨⟨spotSchemaErrors v, ?_, hmem⟩, ?_⟩
  · simp [spotFormSubmit, hval]
  · intro p
    simp [spotFormSubmit, hval]

/-- Witness for C2 at latitude 91. -/
theorem spotForm_rejects_out_of_range_latitude_witness :
    (∃ errs, spotFormSubmit sampleBadLatValues =
      SubmitOutcome.fieldErrors errs ∧ "latitude" ∈ errs) ∧
    ∀ p, spotFormSubmit sampleBadLatValues ≠
      SubmitOutcome.invokedOnSubmit p :=
  spotForm_rejects_out_of_range_latitude sampleBadLatValues 91 rfl
    (by norm_num)

/-- C3: the city selector is disabled exactly when no state has been chosen,
i.e. when the watched `state_id` is undefined or the empty string; once a
state is chosen it is enabled. -/
theorem citySelector_disabled_iff_state_unchosen (stateId : Option String) :
    citySelectorDisabled stateId = true ↔
      stateId = none ∨ stateId = some "" := by
  rcases stateId with _ | s
  · simp [citySelectorDisabled, jsTruthyStr]
  · simp [citySelectorDisabled, jsTruthyStr, String.isEmpty_iff]

/-- C4 counterexample: the `getLocations` action of the Locations page has no
try/catch, so a service error escapes it uncaught and no toast is emitted —
refuting "no network error escapes the action uncaught" for the repository as
a whole. -/
theorem getLocations_error_escapes_uncaught :
    (getLocationsRun locationsInit (Except.error "network error")).uncaught =
      some "network error" ∧
    (getLocationsRun locationsInit (Except.error "network error")).toasts =
      [] :=
  ⟨rfl, rfl⟩

/-- C4 (amended): each network action of the spot form (`getStates`,
`getCities`, `getCategories`, `getCurrentLocation`) catches an error from its
underlying call locally and surfaces it as exactly one toast, letting nothing
escape; the Locations page's `getLocations`, by contrast, lets the error
escape uncaught with no toast. -/
theorem network_error_handling_per_action (e : String)
    (spot : Option SpotByIdDTO) (sts : List StateDTO) (cs : List CityDTO)
    (cats : List CategoryDTO) (ll : Option Rat × Option Rat)
    (st : LocationsState) :
    ((getStatesRun spot sts (Except.error e)).uncaught = none ∧
      (getStatesRun spot sts (Except.error e)).toasts = [e]) ∧
    ((getCitiesRun cs (Except.error e)).uncaught = none ∧
      (getCitiesRun cs (Except.error e)).toasts = [e]) ∧
    ((getCategoriesRun cats (Except.error e)).uncaught = none ∧
      (getCategoriesRun cats (Except.error e)).toasts = [e]) ∧
    ((getCurrentLocationRun ll (Except.error e)).uncaught = none ∧
      (getCurrentLocationRun ll (Except.error e)).toasts = [e]) ∧
    ((getLocationsRun st (Except.error e)).uncaught = some e ∧
      (getLocationsRun st (Except.error e)).toasts = []) :=
  ⟨⟨rfl, rfl⟩, ⟨rfl, rfl⟩, ⟨rfl, rfl⟩, ⟨rfl, rfl⟩, ⟨rfl, rfl⟩⟩

/-- C5: states and categories are fetched exactly once, on mount (render 0),
and cities are fetched at a render exactly when the `state_id` dependency
changed at that render (the mount render included) and its current value is a
non-empty string. -/
theorem reference_lists_fetch_schedule (renders : List (Option String))
    (i : Nat) :
    (statesFetchedAt i = true ↔ i = 0) ∧
    (categoriesFetchedAt i = true ↔ i = 0) ∧
    (citiesFetchedAt renders i = true ↔
      ((i = 0 ∨ renders.getD i none ≠ renders.getD (i - 1) none) ∧
        ∃ s, renders.getD i none = some s ∧ s ≠ "")) := by
  refine ⟨by simp [statesFetchedAt], by simp [categoriesFetchedAt], ?_⟩
  unfold citiesFetchedAt stateIdDepRuns
  generalize renders.getD i none = x
  generalize renders.getD (i - 1) none = y
  rcases x with _ | s
  · simp [jsTruthyStr]
  · simp [jsTruthyStr_some]

/-- C6: in every reachable state of the Locations page, the `locations` list
holds only records that conform to `locationSchema`; and a fetch whose
records all parse assigns the parsed records to `locations` and the
response's `meta` to the pagination metadata state. -/
theorem locations_list_boundary_validated (st : LocationsState)
    (h : LocationsReachable st) :
    (∀ r ∈ st.locations, locationSchemaConforms r = true) ∧
    ∀ resp : LocationsResponse,
      resp.data.all locationSchemaConforms = true →
      getLocationsStep st resp = ⟨resp.data, resp.meta⟩ := by
  constructor
  · induction h with
    | init => simp [locationsInit]
    | step st resp hst ih =>
      intro r hr
      unfold getLocationsStep at hr
      split at hr
      · next hall => exact List.all_eq_true.mp hall r hr
      · exact ih r hr
  · intro resp hall
    unfold getLocationsStep
    rw [if_pos hall]

/-- Witness for C6 at the state reached by one conformant fetch. -/
theorem locations_list_boundary_validated_witness :
    locationSchemaConforms sampleRawLocation = true :=
  (locations_list_boundary_validated _
    (LocationsReachable.step _ sampleLocationsResponse
      LocationsReachable.init)).1 sampleRawLocation (by decide)

/-- C7: rendered with an existing spot, every default value of the form is
bound to the remote resource's current values — name, preview, latitude and
longitude from the spot itself, `city_id` from `spot.city.id`, `state_id`
from `spot.city.state.id`, `category_id` from `spot.category.id`; with no
spot, every default is undefined. -/
theorem spotForm_defaults_bound_to_spot (spot : SpotByIdDTO) :
    spotFormDefaultValues (some spot) =
      ⟨some spot.name, some spot.city.id, some spot.city.state.id,
       some spot.preview, some spot.category.id, some spot.longitude,
       some spot.latitude⟩ ∧
    spotFormDefaultValues none = ⟨none, none, none, none, none, none, none⟩ :=
  ⟨rfl, rfl⟩

/-- C8: the "Cancelar" button is declared with `type="submit"`, so pressing
it triggers exactly the validate-and-submit path `handleSubmit(onSubmit)`,
the same press behaviour as "Salvar"; and no button of the form resets
(discards) the form without submitting. -/
theorem cancelar_button_submits_no_discard (v : SpotFormValues) :
    cancelarButton.typeAttr = some "submit" ∧
    (pressButton cancelarButton v).submitResult = some (spotFormSubmit v) ∧
    pressButton cancelarButton v = pressButton salvarButton v ∧
    ∀ b ∈ spotFormButtons, (pressButton b v).resetForm = false := by
  refine ⟨rfl, rfl, rfl, ?_⟩
  intro b hb
  simp only [spotFormButtons, List.mem_cons, List.mem_singleton] at hb
  rcases hb with h | h | h | h
  · subst h; rfl
  · subst h; rfl
  · subst h; rfl
  · cases h

/-- Witness for C8 at the concrete valid form values. -/
theorem cancelar_button_submits_no_discard_witness :
    cancelarButton.typeAttr = some "submit" ∧
    (pressButton cancelarButton sampleValidValues).submitResult =
      some (spotFormSubmit sampleValidValues) ∧
    pressButton cancelarButton sampleValidValues =
      pressButton salvarButton sampleValidValues ∧
    ∀ b ∈ spotFormButtons,
      (pressButton b sampleValidValues).resetForm = false :=
  cancelar_button_submits_no_discard sampleValidValues

/-- C9: when the chosen file fails `validateFile`, the handler clears the
file state, attaches the thrown message as a custom error on the `preview`
field, and leaves the `preview` form value untouched — so whatever preview
image was shown before the failed selection is still shown after it. -/
theorem failed_file_selection_preserves_preview (st : FileInputState)
    (f : FileObj) (m : String) :
    (onFileChangeRun st f (Except.error m)).file = none ∧
    (onFileChangeRun st f (Except.error m)).previewError = some m ∧
    (onFileChangeRun st f (Except.error m)).preview = st.preview ∧
    previewImageShown (onFileChangeRun st f (Except.error m)).preview =
      previewImageShown st.preview :=
  ⟨rfl, rfl, rfl, rfl⟩

/-- C10: every fetch of the Locations page sends `LocationService.getAll` a
page number equal to the table's zero-based page index plus one, and passes
the limit (page size) through unchanged. -/
theorem locations_query_page_offset (p : PaginationState) :
    (getLocationsQuery p).page = usePaginationPage p + 1 ∧
    usePaginationPage p = p.pageIndex ∧
    (getLocationsQuery p).limit = p.pageSize :=
  ⟨rfl, rfl, rfl⟩

end PointerAdmin
